import Mathlib

/-!
Shallow embedding of the scoring and projection engine of
src/crypto_tracker.py. Numeric values are modelled with rationals and
reals; Python dictionaries with optional fields become structures with
Option fields; functions that can raise an uncaught exception return
Option, with none standing for the raised exception.
-/

namespace AssetTracker

/-- Embeds the market_data dictionary slice used by the engine. The nested
Python accesses market_data.get("current_price", \x7b\x7d).get("usd", 0) and
market_data.get("market_cap", \x7b\x7d).get("usd", 0) are modelled by an
Option field per quantity; a read with default 0 becomes Option.getD 0,
a read without a default keeps the Option. -/
structure MarketData where
  current_price : Option ℚ
  market_cap : Option ℚ
  circulating_supply : Option ℚ
  max_supply : Option ℚ

/-- Embeds the Python builtin round on a rational: round half to even
(banker's rounding), returning an integer. -/
def pyRound (q : ℚ) : ℤ :=
  let n := Int.floor q
  let frac := q - n
  if frac < 1/2 then n
  else if 1/2 < frac then n + 1
  else if n % 2 = 0 then n else n + 1

/-- Description part of the scarcity result: either the literal string
"Indeterminate (No defined max supply)" or the string interpolating the
percentage of max supply in circulation with two decimals. -/
inductive ScarcityDesc where
  | indeterminate
  | percent (p : ℚ)
deriving DecidableEq

/-- The integer printed by the two-decimal rendering of a rational in the
description string: the number of hundredths, rounded the way Python
format rounds. A description contains "90.48%" exactly when this value on
its percentage is 9048. -/
def fmt2 (p : ℚ) : ℤ := pyRound (p * 100)

/-- Embeds calculate_scarcity_score (src/crypto_tracker.py lines 115-129).
Python truthiness: the guard `not max_supply or max_supply == 0` fires
when max_supply is absent or equal to zero. When the guard does not fire
and circulating_supply is absent, the expression None / max_supply raises
TypeError, modelled by none. -/
def calculate_scarcity_score (md : MarketData) : Option (ℤ × ScarcityDesc) :=
  match md.max_supply with
  | none => some (0, .indeterminate)
  | some ms =>
    if ms = 0 then some (0, .indeterminate)
    else
      match md.circulating_supply with
      | none => none
      | some cs =>
        let percentage_circulated := cs / ms * 100
        some (pyRound (percentage_circulated / 10), .percent percentage_circulated)

/-- Value of the two market-cap multiples returned by
analyze_network_growth: the "N/A" sentinel string, the float infinity
(rendered "infx" by the format), or a finite number. -/
inductive NGVal where
  | na
  | infinite
  | fin (q : ℚ)
deriving DecidableEq

/-- Value of the required user growth multiple: "N/A", infinity, the
literal 1 taken when the growth multiple is not positive, or the square
root of a finite positive multiple, kept symbolically as sqrtOf of the
radicand (the code computes math.sqrt of it). -/
inductive UGVal where
  | na
  | infinite
  | one
  | sqrtOf (m : ℚ)
deriving DecidableEq

/-- Embeds analyze_network_growth (src/crypto_tracker.py lines 236-253).
The guard `not circulating_supply or circulating_supply == 0 or
current_price == 0` on numbers is equivalent to circulating_supply = 0 or
current_price = 0 (absent fields default to 0). When current_market_cap
is not positive the code assigns float inf to the growth multiple; the
square root of inf is inf. -/
def analyze_network_growth (md : MarketData) (target_price : ℚ) :
    NGVal × NGVal × UGVal :=
  let current_price := (md.current_price).getD 0
  let current_market_cap := (md.market_cap).getD 0
  let circulating_supply := (md.circulating_supply).getD 0
  if circulating_supply = 0 ∨ current_price = 0 then (.na, .na, .na)
  else
    let target_market_cap := target_price * circulating_supply
    let required_growth_multiple : NGVal :=
      if 0 < current_market_cap then .fin (target_market_cap / current_market_cap)
      else .infinite
    let required_user_growth_multiple : UGVal :=
      match required_growth_multiple with
      | .infinite => .infinite
      | .fin q => if 0 < q then .sqrtOf q else .one
      | .na => .na
    (.fin target_market_cap, required_growth_multiple, required_user_growth_multiple)

/-- Embeds the daily growth rate extraction loop shared by
predict_time_to_target and generate_final_analysis (lines 140-148 and
193-197): for each consecutive pair of [timestamp, value] entries whose
previous value is positive, the fractional change; other pairs are
skipped. -/
def growthRates (historical_caps : List (ℚ × ℚ)) : List ℚ :=
  (historical_caps.zip historical_caps.tail).filterMap fun pr =>
    if 0 < pr.1.2 then some ((pr.2.2 - pr.1.2) / pr.1.2) else none

/-- Classification returned by the two time-to-target functions. The
constructors stand for the distinct return strings of each branch; the
year, month and day constructors carry the computed number of days, which
the code renders divided by 365 or 30 with one decimal. -/
inductive TimeClass where
  | targetMet
  | insufficientData
  | nonPositiveGrowth
  | mathError
  | over25Years
  | years (t : ℝ)
  | months (t : ℝ)
  | days (t : ℝ)

/-- True exactly on the days classification. -/
def TimeClass.isDays : TimeClass → Bool
  | .days _ => true
  | _ => false

/-- True exactly on the non-positive growth classification. -/
def TimeClass.isNonPositive : TimeClass → Bool
  | .nonPositiveGrowth => true
  | _ => false

/-- Embeds the classification chain of predict_time_to_target
(lines 166-173): over 25 years, then years, then months, then days. -/
noncomputable def classifyDays (t : ℝ) : TimeClass :=
  if 365 * 25 < t then .over25Years
  else if 365 < t then .years t
  else if 30 < t then .months t
  else .days t

/-- Embeds predict_time_to_target (src/crypto_tracker.py lines 131-173).
The uncaught ZeroDivisionError raised by target/current when the current
market cap is zero is modelled by none; the ValueError of math.log on a
non-positive ratio is caught by the code and becomes the mathError
message. -/
noncomputable def predict_time_to_target (historical_caps : List (ℚ × ℚ))
    (current_market_cap target_market_cap : ℚ) : Option TimeClass :=
  if target_market_cap ≤ current_market_cap then some .targetMet
  else
    let daily_growth_rates := growthRates historical_caps
    if daily_growth_rates = [] then some .insufficientData
    else
      let avg_daily_growth := daily_growth_rates.sum / (daily_growth_rates.length : ℚ)
      if avg_daily_growth ≤ 0 then some .nonPositiveGrowth
      else if current_market_cap = 0 then none
      else if target_market_cap / current_market_cap ≤ 0 then some .mathError
      else some (classifyDays (Real.log ((target_market_cap : ℝ) / (current_market_cap : ℝ)) /
        Real.log (1 + (avg_daily_growth : ℝ))))

/-- Embeds the growth rate extraction duplicated for stocks over a plain
list of closing prices (lines 280-284 and 316-320). -/
def stockRates (historical_prices : List ℚ) : List ℚ :=
  (historical_prices.zip historical_prices.tail).filterMap fun pr =>
    if 0 < pr.1 then some ((pr.2 - pr.1) / pr.1) else none

/-- The required growth component returned by
analyze_stock_growth_and_time: the "N/A" string or the multiple rendered
with two decimals. -/
inductive ReqGrowth where
  | na
  | mult (q : ℚ)
deriving DecidableEq

/-- Embeds the classification chain of analyze_stock_growth_and_time
(lines 301-304); it duplicates the crypto chain with slightly different
strings. -/
noncomputable def classifyDaysStock (t : ℝ) : TimeClass :=
  if 365 * 25 < t then .over25Years
  else if 365 < t then .years t
  else if 30 < t then .months t
  else .days t

/-- Embeds analyze_stock_growth_and_time (src/crypto_tracker.py lines
275-306). required_growth = target/current is computed after the growth
guard and raises an uncaught ZeroDivisionError when current_price is
zero, modelled by none; math.log of a non-positive required_growth raises
ValueError, caught into the mathError message. -/
noncomputable def analyze_stock_growth_and_time (historical_prices : List ℚ)
    (current_price target_price : ℚ) : Option (TimeClass × ReqGrowth) :=
  if target_price ≤ current_price then some (.targetMet, .na)
  else
    let daily_growth_rates := stockRates historical_prices
    if daily_growth_rates = [] then some (.insufficientData, .na)
    else
      let avg_daily_growth := daily_growth_rates.sum / (daily_growth_rates.length : ℚ)
      if avg_daily_growth ≤ 0 then some (.nonPositiveGrowth, .na)
      else if current_price = 0 then none
      else
        let required_growth := target_price / current_price
        if required_growth ≤ 0 then some (.mathError, .na)
        else some (classifyDaysStock (Real.log ((required_growth : ℚ) : ℝ) /
          Real.log (1 + (avg_daily_growth : ℝ))), .mult required_growth)

/-- Python truthiness of the historical_caps argument of
generate_final_analysis: true when it is present and nonempty. -/
def capsTruthy : Option (List (ℚ × ℚ)) → Bool
  | some (_ :: _) => true
  | _ => false

/-- Embeds the network growth block of generate_final_analysis
(lines 190-211) as the pair of the score contribution and the reason
lines it appends. When the series is falsy or the market cap is not
positive the else branch appends the could-not-determine line; when the
loop yields no usable rate the inner if has no else and nothing at all is
appended. -/
def growthSection (current_market_cap : ℚ) (historical_caps : Option (List (ℚ × ℚ))) :
    ℤ × List String :=
  if capsTruthy historical_caps ∧ 0 < current_market_cap then
    let daily_growth_rates := growthRates (historical_caps.getD [])
    if daily_growth_rates = [] then (0, [])
    else
      let avg_daily_growth := daily_growth_rates.sum / (daily_growth_rates.length : ℚ)
      if 1/200 < avg_daily_growth then
        (40, ["[+] High Growth: Network value has shown strong positive momentum."])
      else if 0 < avg_daily_growth then
        (20, ["[~] Positive Growth: Network value is growing, but slowly."])
      else
        (-20, ["[-] Negative Growth: Network value has been declining recently."])
  else (0, ["[-] Could not determine network growth."])

/-- Embeds the Python str.lower call on a ticker symbol, mapping each
character to its lower case form. -/
def strLower (s : String) : String := ⟨s.data.map Char.toLower⟩

/-- Embeds the catalyst and market cap block of generate_final_analysis
(lines 213-223): two independent conditionals, halving allow-list first,
then the market-cap band. -/
def catalystSection (symbol : String) (current_market_cap : ℚ) : ℤ × List String :=
  let halving : ℤ × List String :=
    if strLower symbol ∈ ["btc", "ltc", "kas", "bch"] then
      (10, ["[+] Built-in Catalyst: Has a supply-reduction event (halving)."])
    else (0, [])
  let band : ℤ × List String :=
    if current_market_cap < 1000000000 then
      (10, ["[+] High Reward Potential: Lower market cap allows for more explosive growth."])
    else if 50000000000 < current_market_cap then
      (-10, ["[-] Limited Upside: Very large market cap may limit exponential returns."])
    else (0, [])
  (halving.1 + band.1, halving.2 ++ band.2)

/-- Embeds the grade and summary chain of generate_final_analysis
(lines 227-232), applied after clamping. -/
def cryptoGradeSummary (score : ℤ) : String × String :=
  if 90 ≤ score then
    ("A+", "Exceptional Potential. Displays very strong fundamentals across all key areas.")
  else if 80 ≤ score then
    ("A", "Strong Potential. A solid candidate that scores well in most areas.")
  else if 70 ≤ score then
    ("B+", "Good Potential. Shows positive signals but may have some weaknesses.")
  else if 60 ≤ score then
    ("B", "Moderate Potential. An average candidate that warrants caution.")
  else if 50 ≤ score then
    ("C", "Speculative. Lacks a solid foundation in key areas.")
  else
    ("D", "High-Risk. Shows significant red flags in its fundamental data.")

/-- Embeds the scarcity reason chain of generate_final_analysis
(lines 183-188). -/
def scarcityReasonOf (scarcity_score : ℤ) : String :=
  if 8 ≤ scarcity_score then
    "[+] Strong Scarcity: Asset has a fixed supply, similar to Bitcoin."
  else if 5 ≤ scarcity_score then
    "[~] Moderate Scarcity: Asset has a defined supply but much is yet to be released."
  else
    "[-] Weak Scarcity: Asset is inflationary or has no defined max supply."

/-- The record returned by generate_final_analysis: the clamped integer
score (rendered score/100), the grade, the summary, and the ordered
reason lines. -/
structure FinalAnalysis where
  score : ℤ
  grade : String
  summary : String
  reasons : List String
deriving DecidableEq

/-- Embeds generate_final_analysis (src/crypto_tracker.py lines 175-234).
It calls calculate_scarcity_score, so it propagates the TypeError of a
snapshot with positive max supply and absent circulating supply (none).
The score is the sub-score sum clamped by max(0, min(100, score)) and the
grade and summary are looked up from the clamped value; the reasons are
built in the fixed order scarcity, growth, catalyst. -/
def generate_final_analysis (symbol : String) (md : MarketData)
    (historical_caps : Option (List (ℚ × ℚ))) : Option FinalAnalysis :=
  match calculate_scarcity_score md with
  | none => none
  | some scd =>
    let current_market_cap := (md.market_cap).getD 0
    let gsec := growthSection current_market_cap historical_caps
    let csec := catalystSection symbol current_market_cap
    let raw := scd.1 * 4 + gsec.1 + csec.1
    let score := max 0 (min 100 raw)
    let gs := cryptoGradeSummary score
    some ⟨score, gs.1, gs.2, scarcityReasonOf scd.1 :: (gsec.2 ++ csec.2)⟩

/-- Reason lines of the stock analysis; the valuation lines interpolate
the price/earnings value rendered with two decimals, kept here as the
rational payload. -/
inductive StockReason where
  | strongGrowth
  | positiveGrowth
  | negativeGrowth
  | noGrowthData
  | goodValue (pe : ℚ)
  | fairValue (pe : ℚ)
  | highValuation (pe : ℚ)
  | unknownValuation
deriving DecidableEq

/-- Embeds the business growth block of generate_stock_final_analysis
(lines 315-334): Python truthiness of the price list, then the tiered
mean daily growth bonus; as in the crypto variant, an empty usable rate
list appends nothing. -/
def stockGrowthSection (historical_prices : Option (List ℚ)) : ℤ × List StockReason :=
  match historical_prices with
  | some (p :: rest) =>
    let daily_growth_rates := stockRates (p :: rest)
    if daily_growth_rates = [] then (0, [])
    else
      let avg_daily_growth := daily_growth_rates.sum / (daily_growth_rates.length : ℚ)
      if 3/1000 < avg_daily_growth then (60, [.strongGrowth])
      else if 0 < avg_daily_growth then (30, [.positiveGrowth])
      else (-20, [.negativeGrowth])
  | _ => (0, [.noGrowthData])

/-- Embeds the valuation block of generate_stock_final_analysis
(lines 337-349) as the pair of the score contribution and the appended
reason. Python truthiness: `if pe_ratio:` treats an absent and a zero
price/earnings value the same way, both reaching the unknown valuation
branch with zero points. -/
def stockValuation (pe : Option ℚ) : ℤ × StockReason :=
  match pe with
  | some p =>
    if p ≠ 0 then
      if 0 < p ∧ p < 15 then (40, .goodValue p)
      else if 15 ≤ p ∧ p < 30 then (20, .fairValue p)
      else (-10, .highValuation p)
    else (0, .unknownValuation)
  | none => (0, .unknownValuation)

/-- Embeds the grade and summary chain of generate_stock_final_analysis
(lines 353-357). -/
def equityGradeSummary (score : ℤ) : String × String :=
  if 85 ≤ score then
    ("A", "Strong Buy Candidate. Displays strong growth and good value.")
  else if 70 ≤ score then
    ("B+", "Good Candidate. A solid company that scores well.")
  else if 50 ≤ score then
    ("B", "Moderate Candidate. Shows potential but warrants caution.")
  else if 40 ≤ score then
    ("C", "Speculative. Lacks a solid foundation in key areas.")
  else
    ("D", "High-Risk. Shows significant red flags in its data.")

/-- The record returned by generate_stock_final_analysis. -/
structure StockAnalysis where
  score : ℤ
  grade : String
  summary : String
  reasons : List StockReason
deriving DecidableEq

/-- Embeds generate_stock_final_analysis (src/crypto_tracker.py lines
309-359). Of the info dictionary only the trailingPE entry is read, so it
is passed as the Option pe argument. The function is total: no division
can occur on its path. -/
def generate_stock_final_analysis (pe : Option ℚ)
    (historical_prices : Option (List ℚ)) : StockAnalysis :=
  let gsec := stockGrowthSection historical_prices
  let vsec := stockValuation pe
  let score := max 0 (min 100 (gsec.1 + vsec.1))
  let gs := equityGradeSummary score
  ⟨score, gs.1, gs.2, gsec.2 ++ [vsec.2]⟩

/-! Helper lemmas. -/

/-- The Python round of q is the floor of q or the floor plus one. -/
lemma pyRound_mem (q : ℚ) : pyRound q = Int.floor q ∨ pyRound q = Int.floor q + 1 := by
  simp only [pyRound]
  split_ifs <;> simp

/-- The Python round of a nonnegative rational is nonnegative. -/
lemma pyRound_nonneg (q : ℚ) (h : 0 ≤ q) : 0 ≤ pyRound q := by
  have hf : (0:ℤ) ≤ Int.floor q := Int.floor_nonneg.mpr h
  rcases pyRound_mem q with h1 | h1 <;> omega

/-- The Python round of a rational at most ten is at most ten. -/
lemma pyRound_le_ten (q : ℚ) (h : q ≤ 10) : pyRound q ≤ 10 := by
  rcases lt_or_eq_of_le h with hlt | heq
  · have hf : Int.floor q < 10 := by
      rw [Int.floor_lt]
      exact_mod_cast hlt
    rcases pyRound_mem q with h1 | h1 <;> omega
  · subst heq
    norm_num [pyRound]

/-! Claim theorems. -/

/-- C1, counterexample: on a snapshot with current price 1, market cap 0 and
circulating supply 100, and target price 2, analyze_network_growth returns the
float infinity value for both the required growth multiple and the required
user growth multiple, not the "N/A" sentinel the claim demands. -/
theorem C1_counterexample :
    analyze_network_growth ⟨some 1, some 0, some 100, none⟩ 2 =
      (NGVal.fin 200, NGVal.infinite, UGVal.infinite) ∧
    NGVal.infinite ≠ NGVal.na := by
  constructor
  · norm_num [analyze_network_growth]
  · decide

/-- C1, amended: for every snapshot whose current market cap is zero while
circulating supply and current price are nonzero, analyze_network_growth
returns the infinity sentinel for the required growth multiple and for the
required user growth multiple; no division by zero is performed (the function
is total), but the sentinels are the float infinity, not "N/A". -/
theorem C1_zero_cap_infinite (md : MarketData) (t cs : ℚ)
    (hcs : md.circulating_supply.getD 0 = cs) (hcs0 : cs ≠ 0)
    (hp : md.current_price.getD 0 ≠ 0) (hm : md.market_cap.getD 0 = 0) :
    analyze_network_growth md t = (NGVal.fin (t * cs), NGVal.infinite, UGVal.infinite) := by
  simp only [analyze_network_growth, hcs, hm]
  rw [if_neg (by push_neg; exact ⟨hcs0, hp⟩)]
  norm_num

/-- C1, witness for the amended theorem at a concrete snapshot. -/
theorem C1_witness :
    analyze_network_growth ⟨some 2, some 0, some 50, none⟩ 3 =
      (NGVal.fin (3 * 50), NGVal.infinite, UGVal.infinite) :=
  C1_zero_cap_infinite ⟨some 2, some 0, some 50, none⟩ 3 50 rfl (by norm_num)
    (by norm_num) rfl

/-- C2: the scarcity scorer is not total. On a snapshot whose max supply is
present and positive but whose circulating supply is absent, the source
evaluates None / max_supply and raises TypeError, modelled by none: no
(score, description) pair is returned. -/
theorem C2_absent_supply_raises :
    calculate_scarcity_score ⟨none, none, none, some 21000000⟩ = none := by
  norm_num [calculate_scarcity_score]

/-- C3, counterexample: a snapshot with circulating supply 42 and max supply
21 yields scarcity score 20, outside [0,10]: the implementation does not
clamp. -/
theorem C3_counterexample :
    calculate_scarcity_score ⟨none, none, some 42, some 21⟩ =
      some (20, ScarcityDesc.percent 200) ∧
    ¬ ((20:ℤ) ≤ 10) := by
  constructor
  · norm_num [calculate_scarcity_score, pyRound]
  · decide

/-- C3, amended: whenever both supplies are present and
0 ≤ circulating_supply ≤ max_supply, the returned scarcity score lies in
[0,10]; there is no defensive clamp, so a circulating supply above the max
produces a score above 10. -/
theorem C3_score_bounds (md : MarketData) (cs ms : ℚ)
    (h1 : md.circulating_supply = some cs) (h2 : md.max_supply = some ms)
    (h0 : 0 ≤ cs) (hle : cs ≤ ms) (sc : ℤ) (d : ScarcityDesc)
    (hr : calculate_scarcity_score md = some (sc, d)) :
    0 ≤ sc ∧ sc ≤ 10 := by
  simp only [calculate_scarcity_score, h1, h2] at hr
  by_cases hz : ms = 0
  · rw [if_pos hz] at hr
    injection hr with hr
    injection hr with hr1 hr2
    omega
  · rw [if_neg hz] at hr
    injection hr with hr
    injection hr with hr1 hr2
    have hms : 0 < ms := lt_of_le_of_ne (le_trans h0 hle) (Ne.symm hz)
    have hratio : cs / ms ≤ 1 := (div_le_one hms).mpr hle
    have hq0 : 0 ≤ cs / ms * 100 / 10 := by positivity
    have hq10 : cs / ms * 100 / 10 ≤ 10 := by linarith
    subst hr1
    exact ⟨pyRound_nonneg _ hq0, pyRound_le_ten _ hq10⟩

/-- C3, witness for the amended theorem at the 19M / 21M snapshot, whose
score is 9. -/
theorem C3_witness : (0:ℤ) ≤ 9 ∧ (9:ℤ) ≤ 10 :=
  C3_score_bounds ⟨none, none, some 19000000, some 21000000⟩ 19000000 21000000
    rfl rfl (by norm_num) (by norm_num) 9 (ScarcityDesc.percent (1900/21))
    (by norm_num [calculate_scarcity_score, pyRound])

/-- C6, counterexample: a snapshot with positive max supply 1000 but absent
circulating supply returns no (score, description) at all (the source raises
TypeError), so the formula clause does not hold for every snapshot with
positive max supply. -/
theorem C6_counterexample :
    calculate_scarcity_score ⟨none, none, none, some 1000⟩ = none ∧ (0:ℚ) < 1000 := by
  constructor
  · norm_num [calculate_scarcity_score]
  · norm_num

/-- C6, amended: with max supply absent or zero the scorer returns score 0
with the indeterminate description regardless of circulating supply; with max
supply positive and circulating supply present it returns the rounded
percentage-over-ten score and the percentage description; on the 19M / 21M
example the score is 9 and the two-decimal rendering of the percentage is
90.48 (fmt2 gives the hundredths integer 9048). -/
theorem C6_scarcity_formula :
    (∀ md : MarketData, (md.max_supply = none ∨ md.max_supply = some 0) →
      calculate_scarcity_score md = some (0, ScarcityDesc.indeterminate)) ∧
    (∀ (md : MarketData) (ms cs : ℚ), md.max_supply = some ms → 0 < ms →
      md.circulating_supply = some cs →
      calculate_scarcity_score md =
        some (pyRound (cs / ms * 100 / 10), ScarcityDesc.percent (cs / ms * 100))) ∧
    calculate_scarcity_score ⟨none, none, some 19000000, some 21000000⟩ =
      some (9, ScarcityDesc.percent (1900/21)) ∧
    fmt2 (1900/21) = 9048 := by
  refine ⟨?_, ?_, ?_, ?_⟩
  · intro md h
    rcases h with h | h <;> simp [calculate_scarcity_score, h]
  · intro md ms cs hms hpos hcs
    simp only [calculate_scarcity_score, hms, hcs]
    rw [if_neg (ne_of_gt hpos)]
  · norm_num [calculate_scarcity_score, pyRound]
  · norm_num [fmt2, pyRound]

/-- C6, witness for the amended theorem: the indeterminate branch at an
absent max supply and the formula branch at the 19M / 21M snapshot. -/
theorem C6_witness :
    calculate_scarcity_score ⟨none, none, some 5, none⟩ =
      some (0, ScarcityDesc.indeterminate) ∧
    calculate_scarcity_score ⟨none, none, some 19000000, some 21000000⟩ =
      some (pyRound (19000000 / 21000000 * 100 / 10),
        ScarcityDesc.percent (19000000 / 21000000 * 100)) :=
  ⟨C6_scarcity_formula.1 ⟨none, none, some 5, none⟩ (Or.inl rfl),
   C6_scarcity_formula.2.1 ⟨none, none, some 19000000, some 21000000⟩ 21000000 19000000
     rfl (by norm_num) rfl⟩

/-- C7: whenever the crypto composite scorer produces a result, its score is
the raw sub-score sum clamped to [0,100] and the grade and summary are looked
up from that clamped score by the ordered table, whose tiers are 90, 80, 70,
60, 50 and below; on a concrete input with raw sum -30 (scarcity 0, growth
-20, catalyst -10) the reported score is 0 with grade D. -/
theorem C7_crypto_clamp_and_grade :
    (∀ (symbol : String) (md : MarketData) (caps : Option (List (ℚ × ℚ)))
      (r : FinalAnalysis), generate_final_analysis symbol md caps = some r →
      0 ≤ r.score ∧ r.score ≤ 100 ∧ (r.grade, r.summary) = cryptoGradeSummary r.score) ∧
    (∀ s : ℤ, 90 ≤ s → (cryptoGradeSummary s).1 = "A+") ∧
    (∀ s : ℤ, 80 ≤ s → s < 90 → (cryptoGradeSummary s).1 = "A") ∧
    (∀ s : ℤ, 70 ≤ s → s < 80 → (cryptoGradeSummary s).1 = "B+") ∧
    (∀ s : ℤ, 60 ≤ s → s < 70 → (cryptoGradeSummary s).1 = "B") ∧
    (∀ s : ℤ, 50 ≤ s → s < 60 → (cryptoGradeSummary s).1 = "C") ∧
    (∀ s : ℤ, s < 50 → (cryptoGradeSummary s).1 = "D") ∧
    generate_final_analysis "doge" ⟨none, some 60000000000, none, none⟩
        (some [(0, 100), (1, 50)]) =
      some ⟨0, "D", "High-Risk. Shows significant red flags in its fundamental data.",
        ["[-] Weak Scarcity: Asset is inflationary or has no defined max supply.",
         "[-] Negative Growth: Network value has been declining recently.",
         "[-] Limited Upside: Very large market cap may limit exponential returns."]⟩ := by
  refine ⟨?_, ?_, ?_, ?_, ?_, ?_, ?_, ?_⟩
  · intro symbol md caps r hr
    simp only [generate_final_analysis] at hr
    cases h : calculate_scarcity_score md with
    | none => rw [h] at hr; exact absurd hr (by simp)
    | some scd =>
      rw [h] at hr
      injection hr with hr
      subst hr
      refine ⟨le_max_left 0 _, ?_, ?_⟩
      · exact max_le (by norm_num) (min_le_left _ _)
      · rfl
  · intro s h
    simp [cryptoGradeSummary, h]
  · intro s h1 h2
    simp only [cryptoGradeSummary]
    rw [if_neg (by omega), if_pos h1]
  · intro s h1 h2
    simp only [cryptoGradeSummary]
    rw [if_neg (by omega), if_neg (by omega), if_pos h1]
  · intro s h1 h2
    simp only [cryptoGradeSummary]
    rw [if_neg (by omega), if_neg (by omega), if_neg (by omega), if_pos h1]
  · intro s h1 h2
    simp only [cryptoGradeSummary]
    rw [if_neg (by omega), if_neg (by omega), if_neg (by omega), if_neg (by omega),
      if_pos h1]
  · intro s h1
    simp only [cryptoGradeSummary]
    rw [if_neg (by omega), if_neg (by omega), if_neg (by omega), if_neg (by omega),
      if_neg (by omega)]
  · norm_num [generate_final_analysis, calculate_scarcity_score, growthSection,
      catalystSection, capsTruthy, growthRates, List.filterMap_cons,
      cryptoGradeSummary, scarcityReasonOf]
    decide

/-- C7, witness: the clamp and grade facts instantiated on the raw -30
example result. -/
theorem C7_witness :
    0 ≤ (0:ℤ) ∧ (0:ℤ) ≤ 100 ∧
    (("D" : String), ("High-Risk. Shows significant red flags in its fundamental data." : String)) =
      cryptoGradeSummary 0 :=
  C7_crypto_clamp_and_grade.1 "doge" ⟨none, some 60000000000, none, none⟩
    (some [(0, 100), (1, 50)])
    ⟨0, "D", "High-Risk. Shows significant red flags in its fundamental data.",
      ["[-] Weak Scarcity: Asset is inflationary or has no defined max supply.",
       "[-] Negative Growth: Network value has been declining recently.",
       "[-] Limited Upside: Very large market cap may limit exponential returns."]⟩
    C7_crypto_clamp_and_grade.2.2.2.2.2.2.2

/-- C8: the valuation sub-score of the equity composite scorer follows the
tier table of the claim: a price/earnings value strictly between 0 and 15
adds 40 points with the undervalued reason, one in [15,30) adds 20 with the
fair value reason, one at least 30 or negative adds -10 with the expensive
reason, and an absent value contributes 0 points with the unknown-valuation
reason; the reasons list of the full scorer ends with exactly this valuation
reason. -/
theorem C8_equity_valuation_tiers :
    (∀ p : ℚ, 0 < p → p < 15 → stockValuation (some p) = (40, StockReason.goodValue p)) ∧
    (∀ p : ℚ, 15 ≤ p → p < 30 → stockValuation (some p) = (20, StockReason.fairValue p)) ∧
    (∀ p : ℚ, 30 ≤ p ∨ p < 0 → stockValuation (some p) = (-10, StockReason.highValuation p)) ∧
    stockValuation none = (0, StockReason.unknownValuation) ∧
    (∀ (pe : Option ℚ) (prices : Option (List ℚ)),
      (generate_stock_final_analysis pe prices).reasons =
        (stockGrowthSection prices).2 ++ [(stockValuation pe).2]) := by
  refine ⟨?_, ?_, ?_, rfl, ?_⟩
  · intro p h1 h2
    simp only [stockValuation]
    rw [if_pos (by intro h; exact absurd h (by linarith)), if_pos ⟨h1, h2⟩]
  · intro p h1 h2
    simp only [stockValuation]
    rw [if_pos (by intro h; exact absurd h (by linarith)),
      if_neg (by intro h; linarith [h.2]), if_pos ⟨h1, h2⟩]
  · intro p h
    simp only [stockValuation]
    rcases h with h | h
    · rw [if_pos (by intro hz; exact absurd hz (by linarith)),
        if_neg (by intro hc; linarith [hc.2]), if_neg (by intro hc; linarith [hc.2])]
    · rw [if_pos (by intro hz; exact absurd hz (by linarith)),
        if_neg (by intro hc; linarith [hc.1]), if_neg (by intro hc; linarith [hc.1])]
  · intro pe prices
    rfl

/-- C8, witness: the four tiers instantiated at price/earnings 10, 20, 50 and
absent. -/
theorem C8_witness :
    stockValuation (some 10) = (40, StockReason.goodValue 10) ∧
    stockValuation (some 20) = (20, StockReason.fairValue 20) ∧
    stockValuation (some 50) = (-10, StockReason.highValuation 50) ∧
    stockValuation none = (0, StockReason.unknownValuation) :=
  ⟨C8_equity_valuation_tiers.1 10 (by norm_num) (by norm_num),
   C8_equity_valuation_tiers.2.1 20 (by norm_num) (by norm_num),
   C8_equity_valuation_tiers.2.2.1 50 (Or.inl (by norm_num)),
   C8_equity_valuation_tiers.2.2.2.1⟩

/-- C10, counterexample: with a truthy series whose only pair has a
non-positive previous value and a positive market cap, the growth block of
generate_final_analysis contributes 0 points but appends no reason at all:
the could-not-determine line is absent from the reasons. -/
theorem C10_counterexample :
    generate_final_analysis "x" ⟨none, some 2000000000, none, none⟩
        (some [(0, 0), (1, 5)]) =
      some ⟨0, "D", "High-Risk. Shows significant red flags in its fundamental data.",
        ["[-] Weak Scarcity: Asset is inflationary or has no defined max supply."]⟩ ∧
    ("[-] Could not determine network growth." : String) ∉
      (["[-] Weak Scarcity: Asset is inflationary or has no defined max supply."] : List String) := by
  constructor
  · norm_num [generate_final_analysis, calculate_scarcity_score, growthSection,
      catalystSection, capsTruthy, growthRates, List.filterMap_cons,
      cryptoGradeSummary, scarcityReasonOf]
    decide
  · decide

/-- C10, amended: when the series is absent or empty or the market cap is
not positive, the growth block contributes 0 points and appends exactly the
could-not-determine line; when the series is truthy and the market cap
positive but no usable growth-rate pair exists, the block contributes 0
points and appends nothing; inside generate_final_analysis the growth lines
always occupy the position after the scarcity line and the score is the
clamped sum of the section contributions. -/
theorem C10_growth_section :
    (∀ (cmc : ℚ) (caps : Option (List (ℚ × ℚ))), capsTruthy caps = false ∨ cmc ≤ 0 →
      growthSection cmc caps = (0, ["[-] Could not determine network growth."])) ∧
    (∀ (cmc : ℚ) (l : List (ℚ × ℚ)), 0 < cmc → capsTruthy (some l) = true →
      growthRates l = [] → growthSection cmc (some l) = (0, [])) ∧
    (∀ (symbol : String) (md : MarketData) (caps : Option (List (ℚ × ℚ)))
      (sc : ℤ) (d : ScarcityDesc) (r : FinalAnalysis),
      calculate_scarcity_score md = some (sc, d) →
      generate_final_analysis symbol md caps = some r →
      r.reasons = scarcityReasonOf sc ::
        ((growthSection (md.market_cap.getD 0) caps).2 ++
          (catalystSection symbol (md.market_cap.getD 0)).2) ∧
      r.score = max 0 (min 100 (sc * 4 + (growthSection (md.market_cap.getD 0) caps).1 +
        (catalystSection symbol (md.market_cap.getD 0)).1))) := by
  refine ⟨?_, ?_, ?_⟩
  · intro cmc caps h
    simp only [growthSection]
    rw [if_neg ?_]
    rcases h with h | h
    · simp [h]
    · intro hc
      exact absurd hc.2 (not_lt.mpr h)
  · intro cmc l h1 h2 h3
    simp only [growthSection]
    rw [if_pos ⟨h2, h1⟩]
    simp [h3]
  · intro symbol md caps sc d r hcss hr
    simp only [generate_final_analysis, hcss] at hr
    injection hr with hr
    subst hr
    exact ⟨rfl, rfl⟩

/-- C10, witness: the could-not-determine branch at an absent series and the
silent branch at a series with no usable pair. -/
theorem C10_witness :
    growthSection 5 none = (0, ["[-] Could not determine network growth."]) ∧
    growthSection 5 (some [(0, 0), (1, 5)]) = (0, []) :=
  ⟨C10_growth_section.1 5 none (Or.inl rfl),
   C10_growth_section.2.1 5 [(0, 0), (1, 5)] (by norm_num) rfl
     (by norm_num [growthRates, List.filterMap_cons])⟩

/-! Helper lemmas for the time-to-target claims. -/

/-- Above the 25 year cap the classification is the over-25-years line. -/
lemma classifyDays_over (u : ℝ) (h : 365 * 25 < u) : classifyDays u = .over25Years := by
  simp only [classifyDays]
  rw [if_pos h]

/-- Between one year and the cap the classification carries years. -/
lemma classifyDays_years (u : ℝ) (h1 : u ≤ 365 * 25) (h2 : 365 < u) :
    classifyDays u = .years u := by
  simp only [classifyDays]
  rw [if_neg (not_lt.mpr h1), if_pos h2]

/-- Between one month and one year the classification carries months. -/
lemma classifyDays_months (u : ℝ) (h1 : u ≤ 365) (h2 : 30 < u) :
    classifyDays u = .months u := by
  simp only [classifyDays]
  rw [if_neg (by push_neg; linarith), if_neg (not_lt.mpr h1), if_pos h2]

/-- At most one month the classification carries days. -/
lemma classifyDays_days (u : ℝ) (h1 : u ≤ 30) : classifyDays u = .days u := by
  simp only [classifyDays]
  rw [if_neg (by push_neg; linarith), if_neg (by push_neg; linarith),
    if_neg (not_lt.mpr h1)]

/-- In the projecting branch (target above a positive current value, a
nonempty usable rate list, positive mean growth), predict_time_to_target
returns the classification of ln(target/current) / ln(1 + mean growth). -/
lemma predict_project (caps : List (ℚ × ℚ)) (c t : ℚ) (hct : c < t) (hc : 0 < c)
    (hne : growthRates caps ≠ [])
    (hg : 0 < (growthRates caps).sum / ((growthRates caps).length : ℚ)) :
    predict_time_to_target caps c t =
      some (classifyDays (Real.log ((t : ℝ) / (c : ℝ)) /
        Real.log (1 + (((growthRates caps).sum / ((growthRates caps).length : ℚ) : ℚ) : ℝ)))) := by
  have ht : 0 < t := lt_trans hc hct
  simp only [predict_time_to_target]
  rw [if_neg (not_le.mpr hct), if_neg hne, if_neg (not_le.mpr hg),
    if_neg (ne_of_gt hc), if_neg (not_le.mpr (div_pos ht hc))]

/-- The natural logarithm of 101/100 is positive. -/
lemma log101_pos : 0 < Real.log (101/100) := Real.log_pos (by norm_num)

/-- Upper bound ln(101/100) ≤ 1/100, from ln x ≤ x - 1. -/
lemma log101_ub : Real.log (101/100) ≤ 1/100 := by
  have h := Real.log_le_sub_one_of_pos (x := (101/100 : ℝ)) (by norm_num)
  linarith

/-- Lower bound 1/101 ≤ ln(101/100), from ln of the inverse. -/
lemma log101_lb : (1/101 : ℝ) ≤ Real.log (101/100) := by
  have h := Real.log_le_sub_one_of_pos (x := (100/101 : ℝ)) (by norm_num)
  have h2 : Real.log ((100:ℝ)/101) = - Real.log (101/100) := by
    rw [show ((100:ℝ)/101) = (101/100)⁻¹ by norm_num, Real.log_inv]
  linarith

/-- The example projection ln 2 / ln(101/100) lies between 67.5 and 70.5. -/
lemma exampleT_bounds :
    (67.5 : ℝ) ≤ Real.log 2 / Real.log (101/100) ∧
    Real.log 2 / Real.log (101/100) < 70.5 := by
  constructor
  · rw [le_div_iff₀ log101_pos]
    have h := mul_le_mul_of_nonneg_left log101_ub (by norm_num : (0:ℝ) ≤ 67.5)
    have h2 := Real.log_two_gt_d9
    linarith
  · rw [div_lt_iff₀ log101_pos]
    have h := mul_le_mul_of_nonneg_left log101_lb (by norm_num : (0:ℝ) ≤ 70.5)
    have h2 := Real.log_two_lt_d9
    linarith

/-- Evaluation of the spec example: a two-point series with exact 1 percent
daily growth, current 100, target 200. The projection of about 69.66 days
exceeds 30, so the result is the months classification, not days. -/
lemma predict_example :
    predict_time_to_target [(0, 100), (1, 101)] 100 200 =
      some (TimeClass.months (Real.log 2 / Real.log (101/100))) := by
  have hr : growthRates [(0, 100), (1, 101)] = [1/100] := by
    norm_num [growthRates, List.filterMap_cons]
  rw [predict_project [(0, 100), (1, 101)] 100 200 (by norm_num) (by norm_num)
    (by rw [hr]; norm_num) (by rw [hr]; norm_num)]
  have hcast : Real.log (((200:ℚ) : ℝ) / ((100:ℚ) : ℝ)) = Real.log 2 := by
    norm_num
  have hgg : (1 : ℝ) + (((growthRates [(0, 100), (1, 101)]).sum /
      ((growthRates [(0, 100), (1, 101)]).length : ℚ) : ℚ) : ℝ) = 101/100 := by
    rw [hr]
    norm_num
  rw [hcast, hgg, classifyDays_months _ (by linarith [exampleT_bounds.2])
    (by linarith [exampleT_bounds.1])]

/-- Evaluation at a series with a tiny but positive growth rate of one part
in a trillion: the projection is taken and lands in the over-25-years cap;
no epsilon guard diverts it to the non-positive branch. -/
lemma predict_tiny :
    predict_time_to_target [(0, 1000000000000), (1, 1000000000001)] 100 200 =
      some TimeClass.over25Years := by
  have hr : growthRates [(0, 1000000000000), (1, 1000000000001)] =
      [1/1000000000000] := by
    norm_num [growthRates, List.filterMap_cons]
  rw [predict_project _ 100 200 (by norm_num) (by norm_num)
    (by rw [hr]; norm_num) (by rw [hr]; norm_num)]
  have hcast : Real.log (((200:ℚ) : ℝ) / ((100:ℚ) : ℝ)) = Real.log 2 := by
    norm_num
  have hgg : (1 : ℝ) + (((growthRates [(0, 1000000000000), (1, 1000000000001)]).sum /
      ((growthRates [(0, 1000000000000), (1, 1000000000001)]).length : ℚ) : ℚ) : ℝ) =
      1000000000001/1000000000000 := by
    rw [hr]
    norm_num
  rw [hcast, hgg]
  have hpos : 0 < Real.log ((1000000000001:ℝ)/1000000000000) :=
    Real.log_pos (by norm_num)
  have hub : Real.log ((1000000000001:ℝ)/1000000000000) ≤ 1/1000000000000 := by
    have h := Real.log_le_sub_one_of_pos
      (x := ((1000000000001:ℝ)/1000000000000)) (by norm_num)
    linarith
  refine congrArg some (classifyDays_over _ ?_)
  rw [lt_div_iff₀ hpos]
  have h := mul_le_mul_of_nonneg_left hub (by norm_num : (0:ℝ) ≤ 365 * 25)
  have h2 := Real.log_two_gt_d9
  linarith

/-! Theorems for the time-to-target claims. -/

/-- C9: with a target at or below the current value both time-to-target
functions return the target-met classification at once, for every series. -/
theorem C9_target_met (caps : List (ℚ × ℚ)) (prices : List ℚ) (c t : ℚ)
    (h : t ≤ c) :
    predict_time_to_target caps c t = some TimeClass.targetMet ∧
    analyze_stock_growth_and_time prices c t = some (TimeClass.targetMet, ReqGrowth.na) := by
  constructor
  · simp only [predict_time_to_target]
    rw [if_pos h]
  · simp only [analyze_stock_growth_and_time]
    rw [if_pos h]

/-- C9, witness at an empty series with target 3 below current 5. -/
theorem C9_witness :
    predict_time_to_target [] 5 3 = some TimeClass.targetMet ∧
    analyze_stock_growth_and_time [] 5 3 = some (TimeClass.targetMet, ReqGrowth.na) :=
  C9_target_met [] [] 5 3 (by norm_num)

/-- C4, counterexample: on the spec example (constant 1 percent daily growth,
current 100, target 200) the classification returned is not the days form:
the projection of about 69.66 days exceeds the 30-day threshold and is
reported in months. -/
theorem C4_counterexample :
    (predict_time_to_target [(0, 100), (1, 101)] 100 200).map TimeClass.isDays =
      some false := by
  rw [predict_example]
  rfl

/-- C4, amended: in the projecting branch the function solves
t = ln(target/current)/ln(1 + g) and classifies by the ordered thresholds
(over 25 years, years, months, days); the spec example lands in the months
branch with t = ln 2 / ln 1.01, rendered with one decimal as 2.3 months
(round of ten times t/30 is 23), not as 69.7 days. -/
theorem C4_time_to_target :
    (∀ (caps : List (ℚ × ℚ)) (c t : ℚ), c < t → 0 < c → growthRates caps ≠ [] →
      0 < (growthRates caps).sum / ((growthRates caps).length : ℚ) →
      predict_time_to_target caps c t =
        some (classifyDays (Real.log ((t : ℝ) / (c : ℝ)) /
          Real.log (1 + (((growthRates caps).sum / ((growthRates caps).length : ℚ) : ℚ) : ℝ))))) ∧
    (∀ u : ℝ, 365 * 25 < u → classifyDays u = .over25Years) ∧
    (∀ u : ℝ, u ≤ 365 * 25 → 365 < u → classifyDays u = .years u) ∧
    (∀ u : ℝ, u ≤ 365 → 30 < u → classifyDays u = .months u) ∧
    (∀ u : ℝ, u ≤ 30 → classifyDays u = .days u) ∧
    predict_time_to_target [(0, 100), (1, 101)] 100 200 =
      some (TimeClass.months (Real.log 2 / Real.log (101/100))) ∧
    round (Real.log 2 / Real.log (101/100) / 30 * 10) = (23 : ℤ) := by
  refine ⟨predict_project, classifyDays_over, classifyDays_years, classifyDays_months,
    classifyDays_days, predict_example, ?_⟩
  have hb := exampleT_bounds
  rw [round_eq, Int.floor_eq_iff]
  push_cast
  constructor <;> linarith [hb.1, hb.2]

/-- C4, witness: the projecting branch and each classification tier at
concrete inputs. -/
theorem C4_witness :
    predict_time_to_target [(0, 100), (1, 101)] 100 200 =
      some (classifyDays (Real.log (((200:ℚ) : ℝ) / ((100:ℚ) : ℝ)) /
        Real.log (1 + (((growthRates [(0, 100), (1, 101)]).sum /
          ((growthRates [(0, 100), (1, 101)]).length : ℚ) : ℚ) : ℝ)))) ∧
    classifyDays 10000 = .over25Years ∧
    classifyDays 400 = .years 400 ∧
    classifyDays 100 = .months 100 ∧
    classifyDays 20 = .days 20 :=
  ⟨C4_time_to_target.1 [(0, 100), (1, 101)] 100 200 (by norm_num) (by norm_num)
      (by norm_num [growthRates, List.filterMap_cons])
      (by norm_num [growthRates, List.filterMap_cons]),
   C4_time_to_target.2.1 10000 (by norm_num),
   C4_time_to_target.2.2.1 400 (by norm_num) (by norm_num),
   C4_time_to_target.2.2.2.1 100 (by norm_num) (by norm_num),
   C4_time_to_target.2.2.2.2.1 20 (by norm_num)⟩

/-- C5, counterexample: a series with a tiny but strictly positive growth
rate (one part in a trillion, so ln(1+g) is within any reasonable epsilon of
zero) is not diverted to the non-positive growth classification: the code
has no epsilon guard and projects, landing in the over-25-years cap. -/
theorem C5_counterexample :
    predict_time_to_target [(0, 1000000000000), (1, 1000000000001)] 100 200 ≠
      some TimeClass.nonPositiveGrowth := by
  rw [predict_tiny]
  simp

/-- C5, amended: with the target above the current value and a nonempty
usable rate list, a mean growth rate at most 0 yields the non-positive
growth classification before any logarithm is taken; but the guard is the
exact comparison g ≤ 0 only — any strictly positive mean growth, however
small, proceeds to the logarithmic projection (where ln(1+g) > 0, so the
division is still defined). -/
theorem C5_nonpositive_growth :
    (∀ (caps : List (ℚ × ℚ)) (c t : ℚ), c < t → growthRates caps ≠ [] →
      (growthRates caps).sum / ((growthRates caps).length : ℚ) ≤ 0 →
      predict_time_to_target caps c t = some TimeClass.nonPositiveGrowth) ∧
    predict_time_to_target [(0, 1000000000000), (1, 1000000000001)] 100 200 =
      some TimeClass.over25Years := by
  refine ⟨?_, predict_tiny⟩
  intro caps c t hct hne hg
  simp only [predict_time_to_target]
  rw [if_neg (not_le.mpr hct), if_neg hne, if_pos hg]

/-- C5, witness: the non-positive branch at a strictly declining two-point
series. -/
theorem C5_witness :
    predict_time_to_target [(0, 100), (1, 50)] 100 200 =
      some TimeClass.nonPositiveGrowth :=
  C5_nonpositive_growth.1 [(0, 100), (1, 50)] 100 200 (by norm_num)
    (by norm_num [growthRates, List.filterMap_cons])
    (by norm_num [growthRates, List.filterMap_cons])

end AssetTracker
